import Mathlib

/-!
Verification development for the `asym-assistant` chat backend.

The two components with state-machine behaviour are embedded shallowly:

* the fixed-window rate limiter (`src/lib/rateLimit.ts`): the in-memory
  `Map<string, RateLimitEntry>` store becomes an association list with
  JavaScript `Map` get/set semantics, `Date.now()` becomes an explicit
  `now : Int` argument, and `RateLimiter.checkLimit` becomes a pure
  function returning the decision together with the updated store;

* the chat route handler (`src/app/api/chat/route.ts`): the `POST`
  handler's admission/validation pipeline becomes a pure function from
  (session, store, now, request-body JSON) to (status, upstream-call flag,
  updated store); a `throw` that lands in the handler's catch-all is
  embedded as the 500 branch; the server-sent-event relay over the
  upstream delta stream becomes a function from the list of upstream
  deltas to the list of emitted events; the tool `execute` wrappers
  become functions over the fetcher's outcome (`Except`, since the
  fetchers throw).

JavaScript numbers are modelled as `Int` (timestamps, counts, limits).
-/

namespace RateLimit

/-- `interface RateLimitEntry { count: number; resetTime: number }`. -/
structure RateLimitEntry where
  count : Int
  resetTime : Int
deriving Repr, DecidableEq

/-- `interface RateLimitConfig { maxRequests: number; windowMs: number }`. -/
structure RateLimitConfig where
  maxRequests : Int
  windowMs : Int
deriving Repr, DecidableEq

/-- The module-level `rateLimitStore = new Map<string, RateLimitEntry>()`,
as an association list keyed by identifier. -/
abbrev Store := List (String × RateLimitEntry)

/-- `rateLimitStore.get(identifier)`. -/
def Store.get : Store → String → Option RateLimitEntry
  | [], _ => none
  | (k, v) :: rest, key => if k = key then some v else Store.get rest key

/-- `rateLimitStore.set(identifier, entry)`: replaces the entry in place
when the key is present, otherwise appends it. -/
def Store.set : Store → String → RateLimitEntry → Store
  | [], key, val => [(key, val)]
  | (k, v) :: rest, key, val =>
      if k = key then (key, val) :: rest else (k, v) :: Store.set rest key val

/-- The shape of the value resolved by `RateLimiter.checkLimit`. -/
structure RateLimitResult where
  success : Bool
  limit : Int
  remaining : Int
  resetTime : Int
deriving Repr, DecidableEq

/-- `RateLimiter.checkLimit(identifier)` from `src/lib/rateLimit.ts`,
with `Date.now()` passed in as `now` and the mutated module-level store
returned alongside the result. Branches in source order:
fresh/expired window (`!entry || now > entry.resetTime`), limit exceeded
(`entry.count >= maxRequests`, no mutation), increment. -/
def checkLimit (config : RateLimitConfig) (store : Store) (now : Int)
    (identifier : String) : RateLimitResult × Store :=
  match store.get identifier with
  | none =>
      let newEntry : RateLimitEntry := { count := 1, resetTime := now + config.windowMs }
      ({ success := true, limit := config.maxRequests,
         remaining := config.maxRequests - 1, resetTime := newEntry.resetTime },
       store.set identifier newEntry)
  | some entry =>
      if now > entry.resetTime then
        let newEntry : RateLimitEntry := { count := 1, resetTime := now + config.windowMs }
        ({ success := true, limit := config.maxRequests,
           remaining := config.maxRequests - 1, resetTime := newEntry.resetTime },
         store.set identifier newEntry)
      else if entry.count ≥ config.maxRequests then
        ({ success := false, limit := config.maxRequests,
           remaining := 0, resetTime := entry.resetTime },
         store)
      else
        let newEntry : RateLimitEntry := { count := entry.count + 1, resetTime := entry.resetTime }
        ({ success := true, limit := config.maxRequests,
           remaining := config.maxRequests - newEntry.count, resetTime := entry.resetTime },
         store.set identifier newEntry)

/-- `RateLimiter.cleanup()`: deletes every entry with `now > entry.resetTime`. -/
def cleanup (store : Store) (now : Int) : Store :=
  store.filter (fun kv => !(now > kv.2.resetTime))

/-- `defaultRateLimiter = new RateLimiter({ maxRequests: 10, windowMs: 60 * 1000 })`. -/
def defaultRateLimiterConfig : RateLimitConfig := { maxRequests := 10, windowMs := 60 * 1000 }

end RateLimit

namespace ChatRoute

/-- JSON values, for the parsed request body handed to `chatInputSchema.parse`. -/
inductive Json where
  | null
  | bool (b : Bool)
  | num (n : Int)
  | str (s : String)
  | arr (elems : List Json)
  | obj (fields : List (String × Json))

/-- Object field lookup; `none` on non-objects and missing keys. -/
def Json.getField : Json → String → Option Json
  | .obj fields, key => (fields.find? (fun kv => kv.1 = key)).map (fun kv => kv.2)
  | _, _ => none

/-- `z.enum(['user', 'assistant', 'system', 'tool'])` from `chatInputSchema`. -/
inductive Role where
  | user
  | assistant
  | system
  | tool
deriving Repr, DecidableEq

/-- One element of the `messages` array accepted by `chatInputSchema`. -/
structure ChatMessage where
  id : Option String
  role : Role
  content : String
deriving Repr, DecidableEq

/-- The value produced by a successful `chatInputSchema.parse`. -/
structure ChatInput where
  messages : List ChatMessage
deriving Repr, DecidableEq

/-- Parse of the `role` enum field. -/
def parseRole : Json → Except String Role
  | .str "user" => .ok .user
  | .str "assistant" => .ok .assistant
  | .str "system" => .ok .system
  | .str "tool" => .ok .tool
  | _ => .error "invalid role"

/-- Parse of one message object:
`{ id: z.string().optional(), role: <enum>, content: z.string() }`.
Unknown keys are ignored (zod object default); a missing or non-string
`content`, a missing or invalid `role`, or a present non-string `id` fails. -/
def parseMessage (j : Json) : Except String ChatMessage := do
  let idVal : Option String ←
    match j.getField "id" with
    | none => pure none
    | some (.str s) => pure (some s)
    | some _ => .error "id must be a string"
  let role ←
    match j.getField "role" with
    | none => .error "role is required"
    | some r => parseRole r
  let content ←
    match j.getField "content" with
    | some (.str c) => pure c
    | some _ => .error "content must be a string"
    | none => .error "content is required"
  pure { id := idVal, role := role, content := content }

/-- Parse of the `messages` array elementwise, in order. -/
def parseMessages : List Json → Except String (List ChatMessage)
  | [] => .ok []
  | j :: rest => do
      let m ← parseMessage j
      let ms ← parseMessages rest
      pure (m :: ms)

/-- `chatInputSchema.parse(body)`:
`z.object({ messages: z.array(z.object({...})) })`. In the route the zod
parse throws on failure; here it returns `Except.error`, and the route
embedding maps that error to the handler's catch-all. -/
def chatInputSchemaParse (body : Json) : Except String ChatInput :=
  match body.getField "messages" with
  | some (.arr elems) => (parseMessages elems).map (fun ms => { messages := ms })
  | some _ => .error "messages must be an array"
  | none => .error "messages is required"

/-- Outcome of the `POST` handler in `src/app/api/chat/route.ts`, restricted
to what the claims observe: the HTTP status, whether the upstream
`streamText` generation call was reached, and the rate-window store after
the request. -/
structure PostResponse where
  status : Nat
  upstreamCalled : Bool
  store : RateLimit.Store
deriving Repr, DecidableEq

/-- The `POST` handler pipeline from `src/app/api/chat/route.ts`, with the
session, the shared rate-window store, `Date.now()` and the parsed request
body passed explicitly. In source order:

1. no `session.user.id` → 401;
2. `defaultRateLimiter.checkLimit(session.user.id)` — this mutates the
   store whether or not the rest of the request is valid; `!success` → 429;
3. `chatInputSchema.parse(body)` — a zod failure throws and is absorbed by
   the handler's catch-all, producing 500 `{error: "Internal server error"}`;
4. `messages[messages.length - 1]` on an empty array is `undefined`, so
   reading `.role` throws, again absorbed by the catch-all → 500;
5. last message role not `'user'` → 400 (`'Last message must be from user'`);
6. otherwise the upstream `streamText` call is made and the handler
   returns the 200 event-stream response. -/
def POST (session : Option String) (store : RateLimit.Store) (now : Int)
    (body : Json) : PostResponse :=
  match session with
  | none => { status := 401, upstreamCalled := false, store := store }
  | some userId =>
      let rateLimitResult := RateLimit.checkLimit RateLimit.defaultRateLimiterConfig store now userId
      let store1 := rateLimitResult.2
      if rateLimitResult.1.success = false then
        { status := 429, upstreamCalled := false, store := store1 }
      else
        match chatInputSchemaParse body with
        | .error _ => { status := 500, upstreamCalled := false, store := store1 }
        | .ok input =>
            match input.messages.getLast? with
            | none => { status := 500, upstreamCalled := false, store := store1 }
            | some lastMessage =>
                if lastMessage.role ≠ Role.user then
                  { status := 400, upstreamCalled := false, store := store1 }
                else
                  { status := 200, upstreamCalled := true, store := store1 }

/-- One server-sent-event frame emitted by the `ReadableStream` in the
route. Each frame's JSON is `{type: "text-delta", delta, usage}` or
`{type: "done", usage}`; the `usage` field is the same `result.usage`
value on every frame of a stream and is omitted here. -/
inductive StreamEvent where
  | textDelta (delta : String)
  | done
deriving Repr, DecidableEq

/-- The hard-coded fallback delta sent when the upstream text stream
produced no chunks (`deltaCount === 0`). -/
def fallbackDelta : String :=
  "I'm processing your request. Let me gather the information you need and I'll be back with a detailed response and some follow-up questions to help you further!"

/-- The `ReadableStream` `start` body on the success path: one
`text-delta` frame per upstream chunk of `result.textStream`, in order;
the fallback `text-delta` frame when there was none; then exactly one
`done` frame, after which `controller.close()` runs (the list ends). -/
def relayEvents (deltas : List String) : List StreamEvent :=
  (deltas.map StreamEvent.textDelta)
    ++ (if deltas.length = 0 then [StreamEvent.textDelta fallbackDelta] else [])
    ++ [StreamEvent.done]

/-- The text a stream consumer accumulates: concatenation of the `delta`
payloads of the `text-delta` events, in emission order. -/
def concatDeltas (events : List StreamEvent) : String :=
  String.join (events.filterMap (fun e =>
    match e with
    | .textDelta d => some d
    | .done => none))

/-- `WeatherToolOutput` from `src/types/tools.ts`, the shape returned by
`fetchWeather` on success. -/
structure WeatherToolOutput where
  location : String
  tempC : Int
  description : String
  icon : String
  humidity : Int
  windKph : Int
deriving Repr, DecidableEq

/-- What a tool `execute` hands back to the upstream call: the fetched
value, or the structured `{error: string}` payload. -/
inductive ToolResult (α : Type) where
  | ok (value : α)
  | error (message : String)
deriving Repr, DecidableEq

/-- The `getWeather` tool's `execute` from the route: it awaits
`fetchWeather(location)` and, when that throws (`fetchOutcome = .error e`,
where `e` is the thrown `Error`'s message), catches the exception and
returns the `{error: ...}` payload instead of re-raising. -/
def getWeatherExecute (location : String)
    (fetchOutcome : Except String WeatherToolOutput) : ToolResult WeatherToolOutput :=
  match fetchOutcome with
  | .ok weatherData => .ok weatherData
  | .error e => .error ("Failed to fetch weather for " ++ location ++ ": " ++ e)

end ChatRoute

namespace RateLimit

/-- Predicate of claim C10: every stored window entry has a count between 1
and the configured maximum. -/
def StoreCountsOK (config : RateLimitConfig) (store : Store) : Prop :=
  ∀ kv ∈ store, 1 ≤ kv.2.count ∧ kv.2.count ≤ config.maxRequests

/-- One operation against the shared rate-window table: a `checkLimit` call
or a `cleanup` sweep, each at some clock reading. -/
inductive RLOp where
  | check (now : Int) (identifier : String)
  | sweep (now : Int)

/-- Apply one operation to the store, discarding `checkLimit`'s decision. -/
def applyOp (config : RateLimitConfig) (store : Store) : RLOp → Store
  | .check now identifier => (checkLimit config store now identifier).2
  | .sweep now => cleanup store now

/-- Run a sequence of operations left to right. -/
def runOps (config : RateLimitConfig) (store : Store) : List RLOp → Store
  | [] => store
  | op :: rest => runOps config (applyOp config store op) rest

theorem Store.get_mem {store : Store} {key : String} {entry : RateLimitEntry}
    (h : Store.get store key = some entry) : (key, entry) ∈ store := by
  induction store with
  | nil => simp [Store.get] at h
  | cons head tail ih =>
      obtain ⟨k, v⟩ := head
      simp only [Store.get] at h
      by_cases hk : k = key
      · rw [if_pos hk] at h
        obtain rfl : v = entry := by simpa using h
        subst hk
        exact List.mem_cons_self _ _
      · rw [if_neg hk] at h
        exact List.mem_cons_of_mem _ (ih h)

theorem Store.mem_set {store : Store} {key : String} {val : RateLimitEntry} {kv}
    (h : kv ∈ Store.set store key val) : kv ∈ store ∨ kv = (key, val) := by
  induction store with
  | nil => simp [Store.set] at h; simp [h]
  | cons head tail ih =>
      obtain ⟨k, v⟩ := head
      simp only [Store.set] at h
      by_cases hk : k = key
      · rw [if_pos hk] at h
        rcases List.mem_cons.mp h with h | h
        · right; exact h
        · left; exact List.mem_cons_of_mem _ h
      · rw [if_neg hk] at h
        rcases List.mem_cons.mp h with h | h
        · left; simp [h]
        · rcases ih h with h | h
          · left; exact List.mem_cons_of_mem _ h
          · right; exact h

theorem checkLimit_preserves_counts (config : RateLimitConfig)
    (hmax : 1 ≤ config.maxRequests) {store : Store}
    (hs : StoreCountsOK config store) (now : Int) (identifier : String) :
    StoreCountsOK config (checkLimit config store now identifier).2 := by
  cases hget : Store.get store identifier with
  | none =>
      simp only [checkLimit, hget]
      intro kv hkv
      rcases Store.mem_set hkv with h | h
      · exact hs kv h
      · subst h; exact ⟨le_refl 1, hmax⟩
  | some entry =>
      by_cases hexp : now > entry.resetTime
      · simp only [checkLimit, hget, if_pos hexp]
        intro kv hkv
        rcases Store.mem_set hkv with h | h
        · exact hs kv h
        · subst h; exact ⟨le_refl 1, hmax⟩
      · by_cases hcount : entry.count ≥ config.maxRequests
        · simp only [checkLimit, hget, if_neg hexp, if_pos hcount]
          exact hs
        · simp only [checkLimit, hget, if_neg hexp, if_neg hcount]
          intro kv hkv
          rcases Store.mem_set hkv with h | h
          · exact hs kv h
          · subst h
            have hentry := hs (identifier, entry) (Store.get_mem hget)
            have h1 : 1 ≤ entry.count := hentry.1
            have h2 : entry.count ≤ config.maxRequests := hentry.2
            constructor
            · show (1 : Int) ≤ entry.count + 1
              omega
            · show entry.count + 1 ≤ config.maxRequests
              omega

theorem cleanup_preserves_counts (config : RateLimitConfig) {store : Store}
    (hs : StoreCountsOK config store) (now : Int) :
    StoreCountsOK config (cleanup store now) :=
  fun kv hkv => hs kv (List.mem_of_mem_filter hkv)

theorem runOps_preserves_counts (config : RateLimitConfig)
    (hmax : 1 ≤ config.maxRequests) :
    ∀ (ops : List RLOp) (store : Store), StoreCountsOK config store →
      StoreCountsOK config (runOps config store ops) := by
  intro ops
  induction ops with
  | nil => intro store hs; exact hs
  | cons op rest ih =>
      intro store hs
      cases op with
      | check now identifier =>
          exact ih _ (checkLimit_preserves_counts config hmax hs now identifier)
      | sweep now =>
          exact ih _ (cleanup_preserves_counts config hs now)

end RateLimit

open RateLimit ChatRoute

/-- C2: the claim says an existing entry is treated as absent exactly when
`now ≥ windowEnd`, so that the count is never incremented at
`now = windowEnd`. The code tests `now > entry.resetTime` (strict), so at
`now = windowEnd` the entry is still live: with the default config, an
entry `{count := 1, resetTime := 1000}` consulted at `now = 1000` is
incremented to count 2 with `remaining = 8`, not replaced by a fresh
window with `remaining = maxRequests - 1 = 9`. -/
theorem checkLimit_at_windowEnd_counterexample :
    RateLimit.Store.get (checkLimit defaultRateLimiterConfig
        [("u", { count := 1, resetTime := 1000 })] 1000 "u").2 "u"
      = some { count := 2, resetTime := 1000 }
    ∧ (checkLimit defaultRateLimiterConfig
        [("u", { count := 1, resetTime := 1000 })] 1000 "u").1.remaining
      ≠ defaultRateLimiterConfig.maxRequests - 1 := by
  constructor
  · rfl
  · decide

/-- C2 (amended): an existing entry is treated as absent exactly when the
current time is strictly past its `windowEnd` (`now > resetTime`): in that
case the entry is replaced with `count = 1`,
`windowEnd = now + windowDurationMs`, and the call is admitted with
`remaining = maxRequests - 1`; at `now = windowEnd` (more generally
whenever `now ≤ windowEnd` and the count is below the maximum) the entry
is instead incremented in place. -/
theorem checkLimit_fresh_window_iff_strictly_expired (config : RateLimitConfig)
    (store : Store) (now : Int) (identifier : String) (entry : RateLimitEntry)
    (hget : Store.get store identifier = some entry) :
    (now > entry.resetTime →
      checkLimit config store now identifier =
        ({ success := true, limit := config.maxRequests,
           remaining := config.maxRequests - 1, resetTime := now + config.windowMs },
         Store.set store identifier { count := 1, resetTime := now + config.windowMs }))
    ∧ (¬ now > entry.resetTime → entry.count < config.maxRequests →
      checkLimit config store now identifier =
        ({ success := true, limit := config.maxRequests,
           remaining := config.maxRequests - (entry.count + 1), resetTime := entry.resetTime },
         Store.set store identifier { count := entry.count + 1, resetTime := entry.resetTime })) := by
  constructor
  · intro hexp
    simp [checkLimit, hget, hexp]
  · intro hlive hcount
    have hge : ¬ entry.count ≥ config.maxRequests := by omega
    simp [checkLimit, hget, hlive, hge]

/-- Witness for C2's amended theorem at a concrete input. -/
theorem checkLimit_fresh_window_iff_strictly_expired_witness :
    RateLimit.Store.get [("u", RateLimitEntry.mk 1 1000)] "u"
        = some (RateLimitEntry.mk 1 1000)
    ∧ ((1001 > (1000 : Int) →
      checkLimit defaultRateLimiterConfig [("u", RateLimitEntry.mk 1 1000)] 1001 "u" =
        ({ success := true, limit := 10, remaining := 9, resetTime := 61001 },
         [("u", RateLimitEntry.mk 1 61001)]))
    ∧ (¬ (1001 : Int) > 1000 → (1 : Int) < 10 →
      checkLimit defaultRateLimiterConfig [("u", RateLimitEntry.mk 1 1000)] 1001 "u" =
        ({ success := true, limit := 10, remaining := 8, resetTime := 1000 },
         [("u", RateLimitEntry.mk 2 1000)]))) :=
  ⟨by decide,
   checkLimit_fresh_window_iff_strictly_expired defaultRateLimiterConfig
     [("u", RateLimitEntry.mk 1 1000)] 1001 "u" (RateLimitEntry.mk 1 1000) (by decide)⟩

/-- C6: an existing entry whose window is still live (`now ≤ windowEnd`)
and whose count has reached the maximum yields a denial with
`remaining = 0` and `resetTime` equal to the stored `windowEnd`, and the
store is returned unchanged (no mutation). -/
theorem checkLimit_denied_no_mutation (config : RateLimitConfig)
    (store : Store) (now : Int) (identifier : String) (entry : RateLimitEntry)
    (hget : Store.get store identifier = some entry)
    (hlive : ¬ now > entry.resetTime)
    (hcount : entry.count ≥ config.maxRequests) :
    checkLimit config store now identifier =
      ({ success := false, limit := config.maxRequests,
         remaining := 0, resetTime := entry.resetTime },
       store) := by
  simp [checkLimit, hget, hlive, hcount]

/-- Witness for C6 at a concrete input. -/
theorem checkLimit_denied_no_mutation_witness :
    RateLimit.Store.get [("u", RateLimitEntry.mk 10 1000)] "u"
        = some (RateLimitEntry.mk 10 1000)
    ∧ ¬ (500 : Int) > 1000
    ∧ (10 : Int) ≥ 10
    ∧ checkLimit defaultRateLimiterConfig [("u", RateLimitEntry.mk 10 1000)] 500 "u" =
        ({ success := false, limit := 10, remaining := 0, resetTime := 1000 },
         [("u", RateLimitEntry.mk 10 1000)]) :=
  ⟨by decide, by decide, by decide,
   checkLimit_denied_no_mutation defaultRateLimiterConfig
     [("u", RateLimitEntry.mk 10 1000)] 500 "u" (RateLimitEntry.mk 10 1000)
     (by decide) (by decide) (by decide)⟩

/-- C7: an existing entry whose window is still live and whose count is
below the maximum is incremented by exactly one in place (its `windowEnd`
unchanged), and the call is admitted with
`remaining = maxRequests - (count + 1)` (post-increment count) and
`resetTime` equal to the stored `windowEnd`. -/
theorem checkLimit_increments_below_max (config : RateLimitConfig)
    (store : Store) (now : Int) (identifier : String) (entry : RateLimitEntry)
    (hget : Store.get store identifier = some entry)
    (hlive : ¬ now > entry.resetTime)
    (hcount : entry.count < config.maxRequests) :
    checkLimit config store now identifier =
      ({ success := true, limit := config.maxRequests,
         remaining := config.maxRequests - (entry.count + 1),
         resetTime := entry.resetTime },
       Store.set store identifier { count := entry.count + 1, resetTime := entry.resetTime }) := by
  have hge : ¬ entry.count ≥ config.maxRequests := by omega
  simp [checkLimit, hget, hlive, hge]

/-- Witness for C7 at a concrete input. -/
theorem checkLimit_increments_below_max_witness :
    RateLimit.Store.get [("u", RateLimitEntry.mk 3 1000)] "u"
        = some (RateLimitEntry.mk 3 1000)
    ∧ ¬ (500 : Int) > 1000
    ∧ (3 : Int) < 10
    ∧ checkLimit defaultRateLimiterConfig [("u", RateLimitEntry.mk 3 1000)] 500 "u" =
        ({ success := true, limit := 10, remaining := 6, resetTime := 1000 },
         [("u", RateLimitEntry.mk 4 1000)]) :=
  ⟨by decide, by decide, by decide,
   checkLimit_increments_below_max defaultRateLimiterConfig
     [("u", RateLimitEntry.mk 3 1000)] 500 "u" (RateLimitEntry.mk 3 1000)
     (by decide) (by decide) (by decide)⟩

/-- C10: assuming `maxRequests ≥ 1`, after any sequence of `checkLimit`
and `cleanup` calls starting from the empty store, every stored entry has
`1 ≤ count ≤ maxRequests`; and `cleanup` only removes entries (everything
it keeps was already in the store). -/
theorem rateLimiter_count_invariant (config : RateLimitConfig)
    (hmax : 1 ≤ config.maxRequests) :
    (∀ ops : List RLOp, StoreCountsOK config (runOps config [] ops))
    ∧ (∀ (store : Store) (now : Int) (kv), kv ∈ cleanup store now → kv ∈ store) :=
  ⟨fun ops => runOps_preserves_counts config hmax ops [] (by intro kv hkv; simp at hkv),
   fun _ _ _ hkv => List.mem_of_mem_filter hkv⟩

/-- Witness for C10 with the default configuration. -/
theorem rateLimiter_count_invariant_witness :
    (1 : Int) ≤ defaultRateLimiterConfig.maxRequests
    ∧ StoreCountsOK defaultRateLimiterConfig
        (runOps defaultRateLimiterConfig []
          [RLOp.check 0 "u", RLOp.check 5 "u", RLOp.check 70000 "u", RLOp.sweep 200000]) :=
  ⟨by decide,
   (rateLimiter_count_invariant defaultRateLimiterConfig (by decide)).1
     [RLOp.check 0 "u", RLOp.check 5 "u", RLOp.check 70000 "u", RLOp.sweep 200000]⟩

/-- C1: the claim says an authenticated, admitted request whose last
message role is not `"user"` yields 400 with no upstream call and no
rate-window mutation. The 400 and the absence of an upstream call hold,
but the store IS mutated: `checkLimit` runs (and consumes quota) before
the last-message check. Concretely, the caller's entry goes from count 1
to count 2 even though the request is rejected with 400. -/
theorem chat_assistant_last_mutation_counterexample :
    (POST (some "u") [("u", RateLimitEntry.mk 1 1000)] 500
        (Json.obj [("messages", Json.arr
          [Json.obj [("role", Json.str "assistant"), ("content", Json.str "hi")]])])).status
      = 400
    ∧ (POST (some "u") [("u", RateLimitEntry.mk 1 1000)] 500
        (Json.obj [("messages", Json.arr
          [Json.obj [("role", Json.str "assistant"), ("content", Json.str "hi")]])])).upstreamCalled
      = false
    ∧ (POST (some "u") [("u", RateLimitEntry.mk 1 1000)] 500
        (Json.obj [("messages", Json.arr
          [Json.obj [("role", Json.str "assistant"), ("content", Json.str "hi")]])])).store
      ≠ [("u", RateLimitEntry.mk 1 1000)] := by
  refine ⟨rfl, rfl, ?_⟩
  decide

/-- C1 (amended): an authenticated, admitted request whose body passes
schema validation and whose last message role is not `"user"` is rejected
with 400 and no upstream call, but the rate-window table is mutated
exactly as by the admission check: quota is consumed before payload
validation, so the resulting store is `checkLimit`'s updated store. -/
theorem chat_assistant_last_400_after_quota (userId : String)
    (store : Store) (now : Int) (body : Json) (input : ChatInput)
    (lastMessage : ChatMessage)
    (hsucc : (checkLimit defaultRateLimiterConfig store now userId).1.success = true)
    (hparse : chatInputSchemaParse body = Except.ok input)
    (hlast : input.messages.getLast? = some lastMessage)
    (hrole : lastMessage.role ≠ Role.user) :
    POST (some userId) store now body =
      { status := 400, upstreamCalled := false,
        store := (checkLimit defaultRateLimiterConfig store now userId).2 } := by
  simp [POST, hsucc, hparse, hlast, hrole]

/-- Witness for C1's amended theorem at a concrete input. -/
theorem chat_assistant_last_400_after_quota_witness :
    (checkLimit defaultRateLimiterConfig [("u", RateLimitEntry.mk 1 1000)] 500 "u").1.success
      = true
    ∧ chatInputSchemaParse (Json.obj [("messages", Json.arr
        [Json.obj [("role", Json.str "assistant"), ("content", Json.str "hi")]])])
      = Except.ok { messages := [ChatMessage.mk none Role.assistant "hi"] }
    ∧ [ChatMessage.mk none Role.assistant "hi"].getLast?
      = some (ChatMessage.mk none Role.assistant "hi")
    ∧ Role.assistant ≠ Role.user
    ∧ POST (some "u") [("u", RateLimitEntry.mk 1 1000)] 500
        (Json.obj [("messages", Json.arr
          [Json.obj [("role", Json.str "assistant"), ("content", Json.str "hi")]])]) =
      { status := 400, upstreamCalled := false,
        store := [("u", RateLimitEntry.mk 2 1000)] } :=
  ⟨rfl, rfl, rfl, by decide,
   chat_assistant_last_400_after_quota "u" [("u", RateLimitEntry.mk 1 1000)] 500
     (Json.obj [("messages", Json.arr
       [Json.obj [("role", Json.str "assistant"), ("content", Json.str "hi")]])])
     { messages := [ChatMessage.mk none Role.assistant "hi"] }
     (ChatMessage.mk none Role.assistant "hi") rfl rfl rfl (by decide)⟩

/-- C3: the claim says a body failing schema validation is rejected with
400 and no upstream call. No upstream call is made, but the status is 500,
not 400: `chatInputSchema.parse` throws a `ZodError`, which the handler's
catch-all converts to 500 `{error: "Internal server error"}`. Concretely,
a message whose `content` is a number yields 500. -/
theorem chat_schema_failure_counterexample :
    (POST (some "u") [] 0
        (Json.obj [("messages", Json.arr
          [Json.obj [("role", Json.str "user"), ("content", Json.num 5)]])])).status
      = 500
    ∧ (POST (some "u") [] 0
        (Json.obj [("messages", Json.arr
          [Json.obj [("role", Json.str "user"), ("content", Json.num 5)]])])).status
      ≠ 400
    ∧ (POST (some "u") [] 0
        (Json.obj [("messages", Json.arr
          [Json.obj [("role", Json.str "user"), ("content", Json.num 5)]])])).upstreamCalled
      = false := by
  refine ⟨rfl, ?_, rfl⟩
  decide

/-- C3 (amended): for every authenticated, admitted request whose body
fails schema validation on the conversation payload, the handler responds
500 (the zod exception is absorbed by the catch-all) and makes no upstream
generation call. -/
theorem chat_schema_failure_500_no_upstream (userId : String)
    (store : Store) (now : Int) (body : Json) (errMessage : String)
    (hsucc : (checkLimit defaultRateLimiterConfig store now userId).1.success = true)
    (hparse : chatInputSchemaParse body = Except.error errMessage) :
    POST (some userId) store now body =
      { status := 500, upstreamCalled := false,
        store := (checkLimit defaultRateLimiterConfig store now userId).2 } := by
  simp [POST, hsucc, hparse]

/-- Witness for C3's amended theorem at a concrete input. -/
theorem chat_schema_failure_500_no_upstream_witness :
    (checkLimit defaultRateLimiterConfig [] 0 "u").1.success = true
    ∧ chatInputSchemaParse (Json.obj [("messages", Json.arr
        [Json.obj [("role", Json.str "user"), ("content", Json.num 5)]])])
      = Except.error "content must be a string"
    ∧ POST (some "u") [] 0
        (Json.obj [("messages", Json.arr
          [Json.obj [("role", Json.str "user"), ("content", Json.num 5)]])]) =
      { status := 500, upstreamCalled := false,
        store := [("u", RateLimitEntry.mk 1 60000)] } :=
  ⟨rfl, rfl,
   chat_schema_failure_500_no_upstream "u" [] 0
     (Json.obj [("messages", Json.arr
       [Json.obj [("role", Json.str "user"), ("content", Json.num 5)]])])
     "content must be a string" rfl rfl⟩

/-- C9: an authenticated, admitted request with body `{"messages": []}`
(which passes schema validation) yields 500 with no upstream call:
`messages[messages.length - 1]` is `undefined`, reading `.role` throws,
and the catch-all answers `{error: "Internal server error"}`. -/
theorem chat_empty_messages_500 (userId : String) (store : Store) (now : Int)
    (hsucc : (checkLimit defaultRateLimiterConfig store now userId).1.success = true) :
    POST (some userId) store now (Json.obj [("messages", Json.arr [])]) =
      { status := 500, upstreamCalled := false,
        store := (checkLimit defaultRateLimiterConfig store now userId).2 }
    ∧ (POST (some userId) store now (Json.obj [("messages", Json.arr [])])).status ≠ 400 := by
  have h : POST (some userId) store now (Json.obj [("messages", Json.arr [])]) =
      { status := 500, upstreamCalled := false,
        store := (checkLimit defaultRateLimiterConfig store now userId).2 } := by
    simp [POST, hsucc, chatInputSchemaParse, parseMessages, Json.getField, Except.map]
  refine ⟨h, ?_⟩
  rw [h]
  show (500 : Nat) ≠ 400
  decide

/-- Witness for C9 at a concrete input. -/
theorem chat_empty_messages_500_witness :
    (checkLimit defaultRateLimiterConfig [] 0 "u").1.success = true
    ∧ (POST (some "u") [] 0 (Json.obj [("messages", Json.arr [])]) =
        { status := 500, upstreamCalled := false,
          store := [("u", RateLimitEntry.mk 1 60000)] }
      ∧ (POST (some "u") [] 0 (Json.obj [("messages", Json.arr [])])).status ≠ 400) :=
  ⟨rfl, chat_empty_messages_500 "u" [] 0 rfl⟩

theorem filterMap_textDelta (deltas : List String) :
    List.filterMap (fun e => match e with
      | StreamEvent.textDelta d => some d
      | StreamEvent.done => none) (deltas.map StreamEvent.textDelta) = deltas := by
  induction deltas with
  | nil => rfl
  | cons d rest ih => simpa [List.filterMap_cons] using ih

theorem relayEvents_last (deltas : List String) :
    (relayEvents deltas).getLast? = some StreamEvent.done := by
  unfold relayEvents
  exact List.getLast?_concat _

/-- C4: the claim says the concatenation of the `delta` payloads always
equals the full upstream text. It fails when the upstream stream produced
no chunks: the relay then injects the hard-coded fallback message as a
`text-delta`, so the concatenation is the fallback text rather than the
empty upstream text. -/
theorem relay_empty_stream_counterexample :
    concatDeltas (relayEvents []) = fallbackDelta
    ∧ concatDeltas (relayEvents []) ≠ String.join ([] : List String) := by
  constructor
  · rfl
  · decide

/-- C4 (amended): whenever the upstream generation produced at least one
text chunk, the concatenation of the `delta` payloads of the emitted
`text-delta` events, in emission order, equals the concatenation of the
upstream chunks — no text is added, dropped, or reordered. When the
upstream produced no chunks, a single fixed fallback delta is emitted
instead. -/
theorem relay_concat_preserves_upstream_text (deltas : List String)
    (h : deltas ≠ []) :
    concatDeltas (relayEvents deltas) = String.join deltas := by
  have hlen : ¬ deltas.length = 0 := fun hc => h (List.length_eq_zero.mp hc)
  unfold concatDeltas relayEvents
  rw [if_neg hlen, List.append_nil, List.filterMap_append, filterMap_textDelta]
  simp

/-- Witness for C4's amended theorem at a concrete input. -/
theorem relay_concat_preserves_upstream_text_witness :
    ["Hello, ", "world"] ≠ ([] : List String)
    ∧ concatDeltas (relayEvents ["Hello, ", "world"]) = String.join ["Hello, ", "world"] :=
  ⟨by decide, relay_concat_preserves_upstream_text ["Hello, ", "world"] (by decide)⟩

/-- C5: on the success path, the relay emits exactly one `done` event, it
is the final event of the stream (after which the controller is closed:
the event list ends), and every preceding event is a `text-delta`. -/
theorem relay_done_unique_and_final (deltas : List String) :
    (relayEvents deltas).getLast? = some StreamEvent.done
    ∧ (relayEvents deltas).count StreamEvent.done = 1
    ∧ ∀ e ∈ (relayEvents deltas).dropLast, ∃ d, e = StreamEvent.textDelta d := by
  refine ⟨relayEvents_last deltas, ?_, ?_⟩
  · unfold relayEvents
    rw [List.count_append]
    have h1 : List.count StreamEvent.done
        ((deltas.map StreamEvent.textDelta)
          ++ (if deltas.length = 0 then [StreamEvent.textDelta fallbackDelta] else [])) = 0 := by
      rw [List.count_eq_zero]
      intro hmem
      rcases List.mem_append.mp hmem with hm | hm
      · obtain ⟨d, _, hd⟩ := List.mem_map.mp hm
        exact StreamEvent.noConfusion hd
      · by_cases hlen : deltas.length = 0
        · rw [if_pos hlen] at hm
          simp at hm
        · rw [if_neg hlen] at hm
          simp at hm
    rw [h1]
    decide
  · intro e he
    unfold relayEvents at he
    rw [List.dropLast_concat] at he
    rcases List.mem_append.mp he with hm | hm
    · obtain ⟨d, _, hd⟩ := List.mem_map.mp hm
      exact ⟨d, hd.symm⟩
    · by_cases hlen : deltas.length = 0
      · rw [if_pos hlen] at hm
        have he' : e = StreamEvent.textDelta fallbackDelta := by simpa using hm
        exact ⟨fallbackDelta, he'⟩
      · rw [if_neg hlen] at hm
        simp at hm

/-- C8: when the underlying `fetchWeather` call throws (here: resolves to
`Except.error`), the `getWeather` tool's `execute` returns the structured
`{error: string}` payload instead of raising (it is a total function into
`ToolResult`), the tool failure is handed to the upstream call as data
rather than terminating the stream, and the relay's event stream still
ends with a `done` event whatever text the upstream then produces. -/
theorem weather_tool_error_payload_stream_done (location errMessage : String)
    (deltas : List String) :
    getWeatherExecute location (Except.error errMessage)
      = ToolResult.error ("Failed to fetch weather for " ++ location ++ ": " ++ errMessage)
    ∧ (relayEvents deltas).getLast? = some StreamEvent.done :=
  ⟨rfl, relayEvents_last deltas⟩
